import Mathlib

/-!
# GNSS_RR signal-cleaning pipeline: a shallow embedding

Verification development for the GNSS_RR repository's filtering and
derivation pipeline (`functions.py`, `preprocess.py`).  A time series is a
list of `(timestamp, value)` pairs: timestamps are seconds (`ℕ`), values
exact rationals (`ℚ`) standing for the float values of the source.  The
pandas operations used by the source (sorting the index, `diff`, boolean
masking, offset-window `rolling` median/std, `resample(...).median`) are
embedded as executable list functions.  Rolling `std` comparisons of the
form `median - k*std < v < median + k*std` are embedded in the squared form
`(v - median)^2 < k^2 * var`, which is equivalent over the reals (both
sides of the original comparison are obtained by the order-preserving
square root) and keeps every definition inside `ℚ`; a window holding fewer
than two samples has `NaN` std in pandas, making both comparisons false, so
the embedded predicate requires at least two samples.
-/

/-- Values of a series. -/
def vals (s : List (ℕ × ℚ)) : List ℚ := s.map Prod.snd

/-- Timestamps of a series. -/
def times (s : List (ℕ × ℚ)) : List ℕ := s.map Prod.fst

/-- Insert one sample into a time-ordered series (helper of `sort_index`). -/
def insertByTime (p : ℕ × ℚ) : List (ℕ × ℚ) → List (ℕ × ℚ)
  | [] => [p]
  | q :: rest => if p.1 ≤ q.1 then p :: q :: rest else q :: insertByTime p rest

/-- `DataFrame.sort_index()`: order a series by timestamp. -/
def sort_index (s : List (ℕ × ℚ)) : List (ℕ × ℚ) := s.foldr insertByTime []

/-- Insert a value into a sorted list of rationals (helper of `sortQ`). -/
def insertQ (x : ℚ) : List ℚ → List ℚ
  | [] => [x]
  | y :: rest => if x ≤ y then x :: y :: rest else y :: insertQ x rest

/-- Sort a list of rationals. -/
def sortQ (l : List ℚ) : List ℚ := l.foldr insertQ []

/-- `Series.median()`: middle element of the sorted values, mean of the two
middle elements for an even count (pandas/numpy median). -/
def median (l : List ℚ) : ℚ :=
  let s := sortQ l
  if s.length % 2 = 1 then s.getD (s.length / 2) 0
  else (s.getD (s.length / 2 - 1) 0 + s.getD (s.length / 2) 0) / 2

/-- Arithmetic mean (helper of the variance). -/
def mean (l : List ℚ) : ℚ := l.sum / l.length

/-- Sample variance with one delta degree of freedom, the square of the
pandas `std()`; meaningful only for two or more samples. -/
def sampleVar (l : List ℚ) : ℚ :=
  ((l.map (fun x => (x - mean l) ^ 2)).sum) / (l.length - 1)

/-- `Series.diff()` as a series: entry `(tᵢ, vᵢ - vᵢ₋₁)` for every sample
with a predecessor (the first sample's `NaN` difference is omitted, so it
can never satisfy a detection mask, exactly as in pandas). -/
def diffVals : List (ℕ × ℚ) → List (ℕ × ℚ)
  | [] => []
  | [_] => []
  | p :: q :: rest => (q.1, q.2 - p.2) :: diffVals (q :: rest)

/-- `u[(u.diff() < -thr)]` reduced to its first entry: the first sample
whose difference from its predecessor is below `-thr`, paired with that
difference (`jump_val = u[jump_ind] - u[:jump_ind][-2]`, i.e. the value at
the break minus the value directly before it). -/
def firstJumpBelow (thr : ℚ) (s : List (ℕ × ℚ)) : Option (ℕ × ℚ) :=
  (diffVals s).find? (fun d => decide (d.2 < -thr))

/-- `u[(u.diff() > thr)]` reduced to its first entry, for the reflectometry
path of `filter_gnssir`. -/
def firstJumpAbove (thr : ℚ) (s : List (ℕ × ℚ)) : Option (ℕ × ℚ) :=
  (diffVals s).find? (fun d => decide (thr < d.2))

/-- Subtract `jv` from every sample at or after timestamp `tj`
(`adj = u[(u.index >= jump.index.format()[0])] - jump_val`, concatenated
with the untouched samples before the break). -/
def adjustFrom (tj : ℕ) (jv : ℚ) (s : List (ℕ × ℚ)) : List (ℕ × ℚ) :=
  s.map (fun p => if tj ≤ p.1 then (p.1, p.2 - jv) else p)

/-- The `while jump.empty is False` loop of `filter_rtklib_solutions`
(functions.py): repeatedly subtract `jv` from everything at or after the
first detected downward jump.  `jv` is the `jump_val` computed once before
the loop and never recomputed inside it, exactly as in the source.  `fuel`
bounds the iteration count; the source has no such guard, so exhausting the
fuel (`none`) models a loop that has not terminated within that bound. -/
def jump_loop_swe : ℕ → ℚ → List (ℕ × ℚ) → Option (List (ℕ × ℚ))
  | 0, _, _ => none
  | fuel + 1, jv, s =>
    match firstJumpBelow 1000 s with
    | none => some s
    | some j => jump_loop_swe fuel jv (adjustFrom j.1 jv s)

/-- The `while jump.empty is False` loop of `filter_gnssir`: same shape,
upward jumps above `2500` mm. -/
def jump_loop_gnssir : ℕ → ℚ → List (ℕ × ℚ) → Option (List (ℕ × ℚ))
  | 0, _, _ => none
  | fuel + 1, jv, s =>
    match firstJumpAbove 2500 s with
    | none => some s
    | some j => jump_loop_gnssir fuel jv (adjustFrom j.1 jv s)

/-- Outcome of a jump-correction stage.  `indexError` models the
`IndexError` of `jump.index.format()[0]` evaluated on an empty jump set
before the loop is ever entered; `fuelOut` models a loop that did not
terminate within the given fuel. -/
inductive JumpOutcome
  | indexError
  | fuelOut
  | ok (s : List (ℕ × ℚ))
deriving DecidableEq

/-- The snow-mast-heightening block of `filter_rtklib_solutions`
(functions.py, lines 710-724): detect the first downward jump, compute
`jump_val` from it, then run the correction loop.  When no jump exists the
source evaluates `jump.index.format()[0]` on an empty index and raises
`IndexError` before reaching the loop. -/
def mast_correction_swe (fuel : ℕ) (u : List (ℕ × ℚ)) : JumpOutcome :=
  match firstJumpBelow 1000 u with
  | none => JumpOutcome.indexError
  | some j =>
    match jump_loop_swe fuel j.2 u with
    | none => JumpOutcome.fuelOut
    | some s => JumpOutcome.ok s

/-- The snow-mast-heightening block of `filter_gnssir` (functions.py,
lines 2330-2346): identical shape, threshold `2500` mm, upward jumps. -/
def mast_correction_gnssir (fuel : ℕ) (u : List (ℕ × ℚ)) : JumpOutcome :=
  match firstJumpAbove 2500 u with
  | none => JumpOutcome.indexError
  | some j =>
    match jump_loop_gnssir fuel j.2 u with
    | none => JumpOutcome.fuelOut
    | some s => JumpOutcome.ok s

/-! ## Rolling-window statistics and outlier rejection -/

/-- The samples of `s` inside the trailing offset window `(t - dur, t]`
that pandas `rolling` with a time offset evaluates at timestamp `t` (the
source series is sorted and has unique timestamps, so these are exactly the
rows up to the current one within the window). -/
def windowEntries (s : List (ℕ × ℚ)) (dur t : ℕ) : List (ℕ × ℚ) :=
  s.filter (fun q => decide (q.1 ≤ t ∧ t < q.1 + dur))

/-- Values inside the trailing window at `t`. -/
def rollingVals (s : List (ℕ × ℚ)) (dur t : ℕ) : List ℚ :=
  vals (windowEntries s dur t)

/-- The mask of `u[(u > lower) & (u < upper)]` with
`lower/upper = u.rolling(dur).median() ± k * u.rolling(dur).std()`:
a sample is kept when its trailing window holds at least two samples (with
fewer the rolling std is `NaN`, so both strict comparisons are false) and
it lies strictly within `k` rolling standard deviations of the rolling
median, stated in the equivalent squared form. -/
def retainsOutlier (s : List (ℕ × ℚ)) (dur : ℕ) (k : ℚ) (p : ℕ × ℚ) : Bool :=
  decide (2 ≤ (rollingVals s dur p.1).length ∧
    (p.2 - median (rollingVals s dur p.1)) ^ 2 < k ^ 2 * sampleVar (rollingVals s dur p.1))

/-- `u_clean = u[(u > lower) & (u < upper)]`: the rolling-window outlier
rejection of `filter_rtklib_solutions` and `filter_gnssir` (window `3D`,
`dur = 259200` seconds, at the call sites). -/
def remove_outliers (dur : ℕ) (k : ℚ) (s : List (ℕ × ℚ)) : List (ℕ × ℚ) :=
  s.filter (retainsOutlier s dur k)

/-- `u_clean.rolling(window).median()`: trailing rolling median over a time
offset window (window `D`, `dur = 86400` seconds, at the call sites). -/
def rolling_median (dur : ℕ) (s : List (ℕ × ℚ)) : List (ℕ × ℚ) :=
  s.map (fun p => (p.1, median (rollingVals s dur p.1)))

/-- Minimum of a list of values (`Series.min()`); `0` on the empty list,
where the source's `min()` is `NaN`. -/
def minList : List ℚ → ℚ
  | [] => 0
  | x :: xs => xs.foldl min x

/-- Maximum of a list of values (`Series.max()`); `0` on the empty list. -/
def maxList : List ℚ → ℚ
  | [] => 0
  | x :: xs => xs.foldl max x

/-! ## The SWE derivation path of functions.py (`filter_rtklib_solutions`) -/

/-- One row of the ENU solution dataframe `df_enu`: timestamp, vertical
component `U` in meters, ambiguity state (1 fixed, 2 float, 5 standalone). -/
structure EnuRecord where
  t : ℕ
  U : ℚ
  amb : ℕ
deriving DecidableEq

/-- `fil_df = df_enu[(df_enu.amb_state == ambiguity)]` followed by
`sort_index()`, keeping the `U` column. -/
def selectAmbiguity (amb : ℕ) (records : List EnuRecord) : List (ℕ × ℚ) :=
  sort_index ((records.filter (fun r => decide (r.amb = amb))).map (fun r => (r.t, r.U)))

/-- `u = fil_df.U * 1000`: meters to millimeters. -/
def toMm (s : List (ℕ × ℚ)) : List (ℕ × ℚ) := s.map (fun p => (p.1, p.2 * 1000))

/-- `filter_rtklib_solutions` of functions.py without the final GPS-to-UTC
index shift: ambiguity selection, mm conversion, mast-heightening jump
correction, rolling 3-day outlier rejection, rolling daily median, and the
re-zeroing `swe_gnss = swe_gnss - swe_gnss.min()`. -/
def swe_core (fuel : ℕ) (k : ℚ) (records : List EnuRecord) (amb : ℕ) : JumpOutcome :=
  match mast_correction_swe fuel (toMm (selectAmbiguity amb records)) with
  | JumpOutcome.indexError => JumpOutcome.indexError
  | JumpOutcome.fuelOut => JumpOutcome.fuelOut
  | JumpOutcome.ok u =>
    let m := rolling_median 86400 (remove_outliers 259200 k u)
    JumpOutcome.ok (m.map (fun p => (p.1, p.2 - minList (vals m))))

/-- `filter_rtklib_solutions` of functions.py: `swe_core` followed by
`swe_gnss.index = swe_gnss.index + pd.Timedelta(seconds=18)`. -/
def filter_rtklib_solutions (fuel : ℕ) (k : ℚ) (records : List EnuRecord) (amb : ℕ) :
    JumpOutcome :=
  match swe_core fuel k records amb with
  | JumpOutcome.ok s => JumpOutcome.ok (s.map (fun p => (p.1 + 18, p.2)))
  | e => e

/-! ## The SWE derivation path of preprocess.py (`filter_rtklib_solutions`) -/

/-- `fil = (fil_df.U - fil_df.U[:swe_zero].median()) * 1000`: zero-reference
against the median of the first `nzero` admitted observations, then convert
to millimeters. -/
def preprocess_zero_ref (nzero : ℕ) (s : List (ℕ × ℚ)) : List (ℕ × ℚ) :=
  s.map (fun p => (p.1, (p.2 - median ((vals s).take nzero)) * 1000))

/-- The preprocess.py outlier rejection: whole-series median and std
(`fil.median() ± threshold * fil.std()`), not rolling ones, in the same
squared form as `retainsOutlier`. -/
def remove_outliers_global (k : ℚ) (s : List (ℕ × ℚ)) : List (ℕ × ℚ) :=
  s.filter (fun p => decide (2 ≤ (vals s).length ∧
    (p.2 - median (vals s)) ^ 2 < k ^ 2 * sampleVar (vals s)))

/-- Value of the series at a timestamp (label lookup `m[t]`; the series has
unique timestamps at every use). -/
def valueAt (s : List (ℕ × ℚ)) (t : ℕ) : ℚ :=
  ((s.filter (fun p => decide (p.1 = t))).headD (0, 0)).2

/-- The guarded single-jump adjustment of preprocess.py: if no difference
is below `-1000` the series is returned unchanged; otherwise the samples
strictly after the first break get `jump[0]` (the series value at the
break) subtracted and the sample at the break itself is dropped
(`m[~(m.index >= jump...)]` keeps `t < tj` while `adj` covers `t > tj`). -/
def preprocess_jump_adjust (m : List (ℕ × ℚ)) : List (ℕ × ℚ) :=
  match firstJumpBelow 1000 m with
  | none => m
  | some j =>
    m.filter (fun p => decide (p.1 < j.1)) ++
      (m.filter (fun p => decide (j.1 < p.1))).map (fun p => (p.1, p.2 - valueAt m j.1))

/-- `swe_gnss = m_adj - m_adj[0]`: subtract the first value; positional
indexing of an empty series raises, modelled as `none`. -/
def re_zero : List (ℕ × ℚ) → Option (List (ℕ × ℚ))
  | [] => none
  | p :: rest => some ((p :: rest).map (fun q => (q.1, q.2 - p.2)))

/-- `filter_rtklib_solutions` of preprocess.py (`resample=False` branch):
ambiguity selection, zero-reference over the first `nzero` samples,
whole-series outlier rejection, rolling daily median, guarded single-jump
adjustment, re-zero against the first value, and the 18-second index
shift. -/
def preprocess_filter_rtklib_solutions (nzero : ℕ) (k : ℚ) (records : List EnuRecord)
    (amb : ℕ) : Option (List (ℕ × ℚ)) :=
  match re_zero (preprocess_jump_adjust (rolling_median 86400 (remove_outliers_global k
      (preprocess_zero_ref nzero (selectAmbiguity amb records))))) with
  | none => none
  | some s => some (s.map (fun p => (p.1 + 18, p.2)))

/-! ## The reflectometry path (`filter_gnssir` of functions.py) -/

/-- One row of the GNSS-IR dataframe `df_rh`: timestamp, reflector height
`RH` in meters, azimuth `Azim` in degrees, satellite-system frequency code
(1 gps l1, 5 gps l5, 101/102 glonass, 201/202/205/207 galileo). -/
structure RhRecord where
  t : ℕ
  RH : ℚ
  azim : ℚ
  freq : ℕ
deriving DecidableEq

/-- The frequency argument of `filter_gnssir`: a named group or one code. -/
inductive FreqSel
  | all
  | first
  | second
  | single (f : ℕ)

/-- The frequency-selection branches of `filter_gnssir`. -/
def select_freq : FreqSel → List RhRecord → List RhRecord
  | FreqSel.all, rs => rs
  | FreqSel.second, rs => rs.filter (fun r => decide (r.freq = 5 ∨ r.freq = 102 ∨
      r.freq = 205 ∨ r.freq = 207))
  | FreqSel.first, rs => rs.filter (fun r => decide (r.freq = 1 ∨ r.freq = 101 ∨ r.freq = 201))
  | FreqSel.single f, rs => rs.filter (fun r => decide (r.freq = f))

/-- The two azimuth masks of `filter_gnssir`, applied in sequence:
`(Azim > 30) & (Azim < 310)` and then `(Azim > 210) | (Azim < 160)`. -/
def azimuth_mask (a : ℚ) : Bool :=
  decide (30 < a ∧ a < 310) && decide (210 < a ∨ a < 160)

/-- The admission stage of `filter_gnssir`: frequency selection, azimuth
masking, conversion of `RH` to millimeters, and `sort_index()`. -/
def admit_gnssir (fs : FreqSel) (rs : List RhRecord) : List (ℕ × ℚ) :=
  sort_index (((select_freq fs rs).filter (fun r => azimuth_mask r.azim)).map
    (fun r => (r.t, r.RH * 1000)))

/-- `s.resample(bin).median()` with empty bins dropped (the source drops
them with `dropna()` at the 15-minute resampling, and the daily aggregate
is only consumed through `max()`, which skips `NaN` rows): one entry per
occupied bin, carrying the median of the bin's values. -/
def resample_median (bin : ℕ) (s : List (ℕ × ℚ)) : List (ℕ × ℚ) :=
  ((s.map (fun p => p.1 / bin)).dedup).map
    (fun b => (b * bin, median (vals (s.filter (fun p => decide (p.1 / bin = b))))))

/-- `filter_gnssir` of functions.py (lines 2298-2369): admission, mast
jump correction (threshold 2500 mm, upward), rolling 3-day outlier
rejection, 15-minute median resampling, and the accumulation conversion
`gnssir_acc = gnssir_rh_clean_daily.max() - gnssir_rh_clean`, where
`gnssir_rh_clean_daily` is the daily median resample of the cleaned
15-minute series. -/
def filter_gnssir (fuel : ℕ) (k : ℚ) (fs : FreqSel) (rs : List RhRecord) : JumpOutcome :=
  match mast_correction_gnssir fuel (admit_gnssir fs rs) with
  | JumpOutcome.indexError => JumpOutcome.indexError
  | JumpOutcome.fuelOut => JumpOutcome.fuelOut
  | JumpOutcome.ok s =>
    let c15 := resample_median 900 (remove_outliers 259200 k s)
    JumpOutcome.ok (c15.map (fun p => (p.1, maxList (vals (resample_median 86400 c15)) - p.2)))

/-- The reflectometry record set of the C4 evaluation: six admissible
GPS-L1 records fifteen minutes apart on one day, reflector heights
`0, 0.01, 0.02, 0.03, 0.04, 3.0` meters — the last step up of `2.96` m is a
mast-heightening jump above the 2500 mm threshold. -/
def c4Records : List RhRecord :=
  [⟨0, 0, 100, 1⟩, ⟨900, 1 / 100, 100, 1⟩, ⟨1800, 1 / 50, 100, 1⟩,
    ⟨2700, 3 / 100, 100, 1⟩, ⟨3600, 1 / 25, 100, 1⟩, ⟨4500, 3, 100, 1⟩]

/-- The ENU record set of the C3 evaluation: four fixed-ambiguity records
with vertical components `0, 0.008, 0.004, -2.996` m; the last step down of
about 3 m is a mast-heightening jump. -/
def c3Records : List EnuRecord :=
  [⟨0, 0, 1⟩, ⟨900, 1 / 125, 1⟩, ⟨1800, 1 / 250, 1⟩, ⟨2700, -749 / 250, 1⟩]

/-! ## DensityEstimator (`convert_swesh2density` of functions.py) -/

/-- `density = ((swe * 1000).divide(sh, axis=0)).dropna()`: the
element-wise quotient on the timestamps both series carry (elsewhere the
pandas division yields `NaN` and is dropped).  A zero `sh` value yields
`inf` in pandas and `0` under rational division; either value is removed by
the final physical-bounds filter, so the returned series is unaffected. -/
def join_div (swe sh : List (ℕ × ℚ)) : List (ℕ × ℚ) :=
  (swe.filter (fun p => decide (p.1 ∈ times sh))).map
    (fun p => (p.1, p.2 * 1000 / valueAt sh p.1))

/-- `density.resample('D').median()[cal_date]`: the daily median of the
raw density at calendar day `day`; `none` models the failed calibration
lookup when the day holds no sample (a `KeyError` for a day outside the
resampled range, and an all-`NaN` calibrated series — every row a missing
value — for an empty day inside it; either way no numeric sample is
emitted). -/
def daily_median_at (s : List (ℕ × ℚ)) (day : ℕ) : Option ℚ :=
  if (s.filter (fun p => decide (p.1 / 86400 = day))).isEmpty then none
  else some (median (vals (s.filter (fun p => decide (p.1 / 86400 = day)))))

/-- `convert_swesh2density` (functions.py, lines 1089-1108): raw density,
single-point calibration offset `cal = cal_val - density.resample('D')
.median()[cal_date]`, 7-day rolling median plus offset, and the physical
bounds filter dropping values below 50 or at/above 830 kg/m3. -/
def convert_swesh2density (swe sh : List (ℕ × ℚ)) (cal_date : ℕ) (cal_val : ℚ) :
    Option (List (ℕ × ℚ)) :=
  match daily_median_at (join_div swe sh) cal_date with
  | none => none
  | some dm =>
    some ((((rolling_median 604800 (join_div swe sh)).map
        (fun p => (p.1, p.2 + (cal_val - dm))))).filter
      (fun p => decide (¬ (p.2 < 50 ∨ 830 ≤ p.2))))

/-! ## Unit conversions (`convert_swe2sh` / `convert_sh2swe` of functions.py) -/

/-- `sh = swe * 1000 / 408`: SWE (mm w.e.) to snow height with the constant
mean density 408 kg/m3 from Hecht 2022. -/
def convert_swe2sh (swe : ℚ) : ℚ := swe * 1000 / 408

/-- `swe = (sh / 1000) * 408`: snow height to SWE with the constant mean
density. -/
def convert_sh2swe (sh : ℚ) : ℚ := sh / 1000 * 408

/-- The interpolated-density branch of `convert_swe2sh`
(`(swe * 1000).divide(ipol_density)`), per timestamp a division by that
instant's density value. -/
def convert_swe2sh_ipol (swe dens : ℚ) : ℚ := swe * 1000 / dens

/-- The interpolated-density branch of `convert_sh2swe`
(`(sh / 1000).multiply(ipol_density)`). -/
def convert_sh2swe_ipol (sh dens : ℚ) : ℚ := sh / 1000 * dens

/-! ## ComparisonEngine (`calculate_crosscorr`, `calculate_linearfit`,
`calculate_rmse` of functions.py)

The three operations consume two series aligned on their timestamps
(`pd.concat([...], axis=1).dropna()` for the fit, index alignment inside
`Series.corr` and precomputed difference series for the RMSE).  The
embedded results carry the exact rational data the float results are made
of: a Pearson result is `NaN` or the pair (covariance, product of the two
sample variances) whose quotient's square root it is; an RMSE result is
`NaN` or the mean square whose square root it is — the square root being a
strictly monotone bijection on the non-negative values, nothing is lost by
deferring it. -/

/-- `pd.concat([a, b], axis=1).dropna()` as value pairs: for every
timestamp of `a` that `b` also carries, the pair of values. -/
def inner_join (a b : List (ℕ × ℚ)) : List (ℚ × ℚ) :=
  (a.filter (fun p => decide (p.1 ∈ times b))).map (fun p => (p.2, valueAt b p.1))

/-- Sample covariance with one delta degree of freedom. -/
def sampleCov (pairs : List (ℚ × ℚ)) : ℚ :=
  ((pairs.map (fun p => (p.1 - mean (pairs.map Prod.fst)) *
    (p.2 - mean (pairs.map Prod.snd)))).sum) / (pairs.length - 1)

/-- Result of `Series.corr`: `NaN`, or the exact data of the Pearson
coefficient `r = cov / sqrt (vprod)`. -/
inductive CorrResult
  | nan
  | val (cov vprod : ℚ)
deriving DecidableEq

/-- `a.corr(b)` (pandas Pearson correlation) on the aligned pairs: `NaN`
for fewer than two pairs, and `NaN` when either sample variance vanishes
(the pandas computation divides by a zero standard deviation there). -/
def seriesCorr (pairs : List (ℚ × ℚ)) : CorrResult :=
  if pairs.length < 2 then CorrResult.nan
  else if sampleVar (pairs.map Prod.fst) = 0 ∨ sampleVar (pairs.map Prod.snd) = 0 then
    CorrResult.nan
  else CorrResult.val (sampleCov pairs)
    (sampleVar (pairs.map Prod.fst) * sampleVar (pairs.map Prod.snd))

/-- Result of the RMSE computation `np.sqrt(np.sum(d ** 2) / len(d))`:
`NaN` (an empty difference series divides zero by zero), or the mean
square `rmse ^ 2`. -/
inductive RmseResult
  | nan
  | val (msq : ℚ)
deriving DecidableEq

/-- `np.sqrt(np.sum(d ** 2) / len(d))` of `calculate_rmse`, carried as the
mean square. -/
def np_rmse (d : List ℚ) : RmseResult :=
  if d.length = 0 then RmseResult.nan
  else RmseResult.val ((d.map (fun x => x ^ 2)).sum / d.length)

/-- Result of `np.polyfit(x, y, 1)`: a generic `TypeError` on empty input
(`expected non-empty vector for x`), a `RankWarning` with a rank-deficient
minimum-norm solution when fewer than two distinct abscissae exist, or the
ordinary-least-squares line. -/
inductive FitResult
  | typeError
  | rankWarn
  | fit (slope intercept : ℚ)
deriving DecidableEq

/-- The degree-1 least-squares slope. -/
def ols_slope (pairs : List (ℚ × ℚ)) : ℚ :=
  ((pairs.length : ℚ) * (pairs.map (fun p => p.1 * p.2)).sum -
      (pairs.map Prod.fst).sum * (pairs.map Prod.snd).sum) /
    ((pairs.length : ℚ) * (pairs.map (fun p => p.1 ^ 2)).sum - (pairs.map Prod.fst).sum ^ 2)

/-- `np.polyfit(x, y, 1)` on the aligned pairs. -/
def np_polyfit (pairs : List (ℚ × ℚ)) : FitResult :=
  if pairs.length = 0 then FitResult.typeError
  else if (pairs.map Prod.fst).dedup.length < 2 then FitResult.rankWarn
  else FitResult.fit (ols_slope pairs)
    (((pairs.map Prod.snd).sum - ols_slope pairs * (pairs.map Prod.fst).sum) / pairs.length)

/-! ## Theorems -/

/-- A jump-free exit of the SWE loop means no difference is below the
negative threshold. -/
theorem jump_loop_swe_exit (fuel : ℕ) (jv : ℚ) (u s : List (ℕ × ℚ))
    (h : jump_loop_swe fuel jv u = some s) :
    ∀ d ∈ diffVals s, -1000 ≤ d.2 := by
  induction fuel generalizing u with
  | zero => simp [jump_loop_swe] at h
  | succ n ih =>
    rw [jump_loop_swe] at h
    cases hj : firstJumpBelow 1000 u with
    | none =>
      rw [hj] at h
      simp only [Option.some.injEq] at h
      subst h
      intro d hd
      have := List.find?_eq_none.mp hj d hd
      simp at this
      linarith
    | some j =>
      rw [hj] at h
      exact ih _ h

/-- A jump-free exit of the reflectometry loop means no difference is above
the positive threshold. -/
theorem jump_loop_gnssir_exit (fuel : ℕ) (jv : ℚ) (u s : List (ℕ × ℚ))
    (h : jump_loop_gnssir fuel jv u = some s) :
    ∀ d ∈ diffVals s, d.2 ≤ 2500 := by
  induction fuel generalizing u with
  | zero => simp [jump_loop_gnssir] at h
  | succ n ih =>
    rw [jump_loop_gnssir] at h
    cases hj : firstJumpAbove 2500 u with
    | none =>
      rw [hj] at h
      cases h
      intro d hd
      have := List.find?_eq_none.mp hj d hd
      simp at this
      linarith
    | some j =>
      rw [hj] at h
      exact ih _ h

/-- C1: the jump-correction loops are one-sided.  On termination the SWE
path (`filter_rtklib_solutions`, threshold 1000 mm) leaves no difference
below `-1000`, and the reflectometry path (`filter_gnssir`, threshold
2500 mm) leaves no difference above `2500`; differences of the opposite
sign may still exceed the threshold in magnitude (see the
counterexample). -/
theorem c1_jump_correction_onesided :
    (∀ fuel u s, mast_correction_swe fuel u = JumpOutcome.ok s →
      ∀ d ∈ diffVals s, -1000 ≤ d.2) ∧
    (∀ fuel u s, mast_correction_gnssir fuel u = JumpOutcome.ok s →
      ∀ d ∈ diffVals s, d.2 ≤ 2500) := by
  constructor
  · intro fuel u s h
    unfold mast_correction_swe at h
    split at h
    · exact absurd h (by simp)
    · next j hj =>
        split at h
        · exact absurd h (by simp)
        · next v hl =>
            simp only [JumpOutcome.ok.injEq] at h
            subst h
            exact jump_loop_swe_exit fuel j.2 u v hl
  · intro fuel u s h
    unfold mast_correction_gnssir at h
    split at h
    · exact absurd h (by simp)
    · next j hj =>
        split at h
        · exact absurd h (by simp)
        · next v hl =>
            simp only [JumpOutcome.ok.injEq] at h
            subst h
            exact jump_loop_gnssir_exit fuel j.2 u v hl

/-- C1 counterexample: the SWE-path corrector terminates on the series
`[0, 2000, 0]` (one downward jump of `-2000` is corrected) yet the output
`[0, 2000, 2000]` keeps a consecutive difference of `+2000`, whose
magnitude exceeds the threshold `1000`; likewise the reflectometry path on
`[0, 3000, 0]` keeps a difference of `-3000` with magnitude above
`2500`. -/
theorem c1_counterexample :
    mast_correction_swe 3 [(0, 0), (900, 2000), (1800, 0)] =
      JumpOutcome.ok [(0, 0), (900, 2000), (1800, 2000)] ∧
    ((900 : ℕ), (2000 : ℚ)) ∈ diffVals [(0, 0), (900, 2000), (1800, 2000)] ∧
    ¬ |(2000 : ℚ)| ≤ 1000 ∧
    mast_correction_gnssir 3 [(0, 0), (900, 3000), (1800, 0)] =
      JumpOutcome.ok [(0, 0), (900, 0), (1800, -3000)] ∧
    ((1800 : ℕ), (-3000 : ℚ)) ∈ diffVals [(0, 0), (900, 0), (1800, -3000)] ∧
    ¬ |(-3000 : ℚ)| ≤ 2500 := by
  refine ⟨?_, ?_, ?_, ?_, ?_, ?_⟩
  · norm_num [mast_correction_swe, jump_loop_swe, firstJumpBelow, diffVals, List.find?, adjustFrom]
  · norm_num [diffVals]
  · rw [abs_of_nonneg] <;> norm_num
  · norm_num [mast_correction_gnssir, jump_loop_gnssir, firstJumpAbove, diffVals, List.find?,
      adjustFrom]
  · norm_num [diffVals]
  · rw [abs_of_nonpos] <;> norm_num

/-- C1 witness: the one-sided guarantee evaluated on the two concrete
corrected series above. -/
theorem c1_witness :
    (∀ d ∈ diffVals [(0, 0), (900, 2000), (1800, 2000)], -1000 ≤ d.2) ∧
    (∀ d ∈ diffVals [(0, 0), (900, 0), (1800, -3000)], d.2 ≤ 2500) :=
  ⟨c1_jump_correction_onesided.1 3 [(0, 0), (900, 2000), (1800, 0)]
      [(0, 0), (900, 2000), (1800, 2000)]
      (by norm_num [mast_correction_swe, jump_loop_swe, firstJumpBelow, diffVals, List.find?,
        adjustFrom]),
    c1_jump_correction_onesided.2 3 [(0, 0), (900, 3000), (1800, 0)]
      [(0, 0), (900, 0), (1800, -3000)]
      (by norm_num [mast_correction_gnssir, jump_loop_gnssir, firstJumpAbove, diffVals,
        List.find?, adjustFrom])⟩

/-- C2: both jump-correction stages evaluate `jump.index.format()[0]` on
the initially detected jump set before checking emptiness, so a series with
no single-step difference beyond the threshold — the "no jump found" case —
raises `IndexError` instead of returning the series unchanged with an empty
jump list.  (The guarded variant in preprocess.py, embedded below as
`preprocess_jump_adjust`, returns such input unchanged.) -/
theorem c2_no_jump_raises :
    mast_correction_swe 5 [(0, 0), (900, 5), (1800, 10)] = JumpOutcome.indexError ∧
    mast_correction_gnssir 5 [(0, 0), (900, 5), (1800, 10)] = JumpOutcome.indexError := by
  constructor
  · norm_num [mast_correction_swe, firstJumpBelow, diffVals, List.find?]
  · norm_num [mast_correction_gnssir, firstJumpAbove, diffVals, List.find?]

/-- C10: the azimuth admission of `filter_gnssir` (the filter applied by
`admit_gnssir` between frequency selection and the mm conversion) retains a
record exactly when its azimuth lies strictly inside `(30, 160)` or
`(210, 310)` degrees; the bounds `30 < a < 310` together with
`a < 160 ∨ a > 210` are literals of the source, not parameters of the
function. -/
theorem c10_azimuth_admission :
    ∀ (fs : FreqSel) (rs : List RhRecord) (r : RhRecord),
      r ∈ (select_freq fs rs).filter (fun q => azimuth_mask q.azim) ↔
        r ∈ select_freq fs rs ∧
          ((30 < r.azim ∧ r.azim < 160) ∨ (210 < r.azim ∧ r.azim < 310)) := by
  intro fs rs r
  rw [List.mem_filter]
  simp only [azimuth_mask, Bool.and_eq_true, decide_eq_true_eq]
  constructor
  · rintro ⟨hm, ⟨h30, h310⟩, h3⟩
    refine ⟨hm, ?_⟩
    rcases h3 with h210 | h160
    · exact Or.inr ⟨h210, h310⟩
    · exact Or.inl ⟨h30, h160⟩
  · rintro ⟨hm, ⟨h30, h160⟩ | ⟨h210, h310⟩⟩
    · exact ⟨hm, ⟨h30, by linarith⟩, Or.inr h160⟩
    · exact ⟨hm, ⟨by linarith, h310⟩, Or.inl h210⟩

/-- C4: the accumulation series emitted by `filter_gnssir` is not
non-negative.  On `c4Records` the pipeline corrects the jump, keeps the
five samples `10, 20, 30, 40, 40` mm, resamples them to 15-minute bins,
takes the maximum of the daily medians (`30`), and emits
`30 - value`, which is `-10` for the two `40` mm samples — the source
computes `gnssir_acc = gnssir_rh_clean_daily.max() - gnssir_rh_clean`
without the non-negativity clipping its own comment announces. -/
theorem c4_negative_accumulation :
    filter_gnssir 3 2 (FreqSel.single 1) c4Records =
      JumpOutcome.ok [(900, 20), (1800, 10), (2700, 0), (3600, -10), (4500, -10)] ∧
    ((3600 : ℕ), (-10 : ℚ)) ∈
      [((900 : ℕ), (20 : ℚ)), (1800, 10), (2700, 0), (3600, -10), (4500, -10)] ∧
    (-10 : ℚ) < 0 := by
  refine ⟨?_, by norm_num, by norm_num⟩
  norm_num [filter_gnssir, c4Records, admit_gnssir, select_freq, azimuth_mask, sort_index,
    insertByTime, mast_correction_gnssir, jump_loop_gnssir, firstJumpAbove, diffVals,
    List.find?, adjustFrom, remove_outliers, retainsOutlier, rollingVals, windowEntries,
    vals, median, sortQ, insertQ, mean, sampleVar, resample_median, List.dedup, maxList]

/-! ## Properties of the re-zero steps -/

theorem foldl_min_le_init (a : ℚ) (l : List ℚ) : l.foldl min a ≤ a := by
  induction l generalizing a with
  | nil => simp
  | cons y ys ih => exact le_trans (ih (min a y)) (min_le_left a y)

theorem foldl_min_le_mem (a x : ℚ) (l : List ℚ) (hx : x ∈ l) : l.foldl min a ≤ x := by
  induction l generalizing a with
  | nil => cases hx
  | cons y ys ih =>
    rcases List.mem_cons.mp hx with rfl | h
    · exact le_trans (foldl_min_le_init (min a x) ys) (min_le_right a x)
    · exact ih (min a y) h

theorem foldl_min_mem (a : ℚ) (l : List ℚ) : l.foldl min a ∈ a :: l := by
  induction l generalizing a with
  | nil => simp
  | cons y ys ih =>
    have h := ih (min a y)
    rcases List.mem_cons.mp h with h1 | h1
    · rcases min_choice a y with hc | hc
      · rw [List.foldl_cons, h1, hc]; exact List.mem_cons_self _ _
      · rw [List.foldl_cons, h1, hc]
        exact List.mem_cons_of_mem _ (List.mem_cons_self _ _)
    · exact List.mem_cons_of_mem _ (List.mem_cons_of_mem _ h1)

theorem minList_le (l : List ℚ) : ∀ x ∈ l, minList l ≤ x := by
  intro x hx
  cases l with
  | nil => cases hx
  | cons y ys =>
    rcases List.mem_cons.mp hx with rfl | h
    · exact foldl_min_le_init x ys
    · exact foldl_min_le_mem y x ys h

theorem minList_mem (l : List ℚ) (h : l ≠ []) : minList l ∈ l := by
  cases l with
  | nil => exact absurd rfl h
  | cons y ys => exact foldl_min_mem y ys

/-- The `ok` result of `swe_core` is the rolling daily median of the
cleaned corrected series with the series minimum subtracted. -/
theorem swe_core_ok_shape (fuel : ℕ) (k : ℚ) (records : List EnuRecord) (amb : ℕ)
    (out : List (ℕ × ℚ)) (h : swe_core fuel k records amb = JumpOutcome.ok out) :
    ∃ u, mast_correction_swe fuel (toMm (selectAmbiguity amb records)) = JumpOutcome.ok u ∧
      out = (rolling_median 86400 (remove_outliers 259200 k u)).map
        (fun p => (p.1, p.2 - minList (vals (rolling_median 86400 (remove_outliers 259200 k u))))) := by
  unfold swe_core at h
  split at h
  · exact absurd h (by simp)
  · exact absurd h (by simp)
  · next u hu =>
      simp only [JumpOutcome.ok.injEq] at h
      exact ⟨u, hu, h.symm⟩

/-- The first value of a series re-zeroed by `re_zero` is `0`. -/
theorem re_zero_head (s out : List (ℕ × ℚ)) (h : re_zero s = some out) :
    ∀ p0, out.head? = some p0 → p0.2 = 0 := by
  cases s with
  | nil => simp [re_zero] at h
  | cons p rest =>
    simp only [re_zero, Option.some.injEq] at h
    subst h
    intro p0 hp0
    simp only [List.map_cons, List.head?_cons, Option.some.injEq] at hp0
    subst hp0
    simp

/-- C3: the two re-zero steps differ.  In functions.py
(`filter_rtklib_solutions`) the final step subtracts the series *minimum*
(`swe_gnss - swe_gnss.min()`), so every emitted value is non-negative and
the minimum value `0` is attained somewhere, but the first sample need not
be `0` (see the counterexample); in preprocess.py the step subtracts the
*first* value (`m_adj - m_adj[0]`), so there the first emitted sample is
exactly `0`. -/
theorem c3_re_zero_semantics :
    (∀ fuel k records amb out,
      filter_rtklib_solutions fuel k records amb = JumpOutcome.ok out →
      (∀ p ∈ out, 0 ≤ p.2) ∧ (out ≠ [] → ∃ p ∈ out, p.2 = 0)) ∧
    (∀ nzero k records amb out,
      preprocess_filter_rtklib_solutions nzero k records amb = some out →
      ∀ p0, out.head? = some p0 → p0.2 = 0) := by
  constructor
  · intro fuel k records amb out h
    unfold filter_rtklib_solutions at h
    split at h
    · next s hs =>
        simp only [JumpOutcome.ok.injEq] at h
        obtain ⟨u, _, hshape⟩ := swe_core_ok_shape fuel k records amb s hs
        subst h
        subst hshape
        set m := rolling_median 86400 (remove_outliers 259200 k u) with hm
        constructor
        · intro p hp
          simp only [List.map_map, List.mem_map, Function.comp] at hp
          obtain ⟨r, hr, rfl⟩ := hp
          have hle : minList (vals m) ≤ r.2 := minList_le _ _ (List.mem_map_of_mem Prod.snd hr)
          simp only
          linarith
        · intro hne
          have hmne : m ≠ [] := by
            intro hnil
            apply hne
            rw [hnil]
            rfl
          have hvne : vals m ≠ [] := by
            simpa [vals, List.map_eq_nil_iff] using hmne
          obtain ⟨r, hr, hrv⟩ := List.mem_map.mp (minList_mem (vals m) hvne)
          refine ⟨(r.1 + 18, r.2 - minList (vals m)), ?_, by rw [hrv]; ring⟩
          simp only [List.map_map, List.mem_map, Function.comp]
          exact ⟨r, hr, rfl⟩
    · next e hne =>
        exact absurd h (hne out)
  · intro nzero k records amb out h
    unfold preprocess_filter_rtklib_solutions at h
    split at h
    · exact absurd h (by simp)
    · next s hs =>
        simp only [Option.some.injEq] at h
        subst h
        intro p0 hp0
        rw [List.head?_map] at hp0
        cases hq0 : s.head? with
        | none => rw [hq0] at hp0; cases hp0
        | some q0 =>
          rw [hq0] at hp0
          simp only [Option.map_some', Option.some.injEq] at hp0
          subst hp0
          exact re_zero_head _ s hs q0 hq0

/-- C3 counterexample: on `c3Records` the functions.py pipeline emits
`[(918, 4), (1818, 2), (2718, 0)]` — the subtracted quantity is the series
minimum (attained by the last sample), so the first emitted sample is `4`,
not `0`. -/
theorem c3_counterexample :
    filter_rtklib_solutions 3 2 c3Records 1 =
      JumpOutcome.ok [(918, 4), (1818, 2), (2718, 0)] ∧
    [((918 : ℕ), (4 : ℚ)), (1818, 2), (2718, 0)].head? = some ((918 : ℕ), (4 : ℚ)) ∧
    (4 : ℚ) ≠ 0 := by
  refine ⟨?_, by norm_num, by norm_num⟩
  norm_num [filter_rtklib_solutions, swe_core, c3Records, selectAmbiguity, sort_index,
    insertByTime, toMm, mast_correction_swe, jump_loop_swe, firstJumpBelow, diffVals,
    List.find?, adjustFrom, remove_outliers, retainsOutlier, rollingVals, windowEntries,
    vals, median, sortQ, insertQ, mean, sampleVar, rolling_median, minList]

/-- C3 witness: the functions.py clause of `c3_re_zero_semantics`
instantiated on the concrete run of `c3_counterexample`, and the
preprocess.py clause instantiated on a three-record jump-free run. -/
theorem c3_witness :
    ((∀ p ∈ [((918 : ℕ), (4 : ℚ)), (1818, 2), (2718, 0)], 0 ≤ p.2) ∧
      ([((918 : ℕ), (4 : ℚ)), (1818, 2), (2718, 0)] ≠ [] →
        ∃ p ∈ [((918 : ℕ), (4 : ℚ)), (1818, 2), (2718, 0)], p.2 = 0)) ∧
    ((18 : ℕ), (0 : ℚ)).2 = 0 :=
  ⟨c3_re_zero_semantics.1 3 2 c3Records 1 [(918, 4), (1818, 2), (2718, 0)]
      (by norm_num [filter_rtklib_solutions, swe_core, c3Records, selectAmbiguity, sort_index,
        insertByTime, toMm, mast_correction_swe, jump_loop_swe, firstJumpBelow, diffVals,
        List.find?, adjustFrom, remove_outliers, retainsOutlier, rollingVals, windowEntries,
        vals, median, sortQ, insertQ, mean, sampleVar, rolling_median, minList]),
    c3_re_zero_semantics.2 2 2 [⟨0, 1 / 100, 1⟩, ⟨900, 1 / 50, 1⟩, ⟨1800, 3 / 200, 1⟩] 1
      [(18, 0), (918, 5), (1818, 5)]
      (by norm_num [preprocess_filter_rtklib_solutions, preprocess_zero_ref, selectAmbiguity,
        sort_index, insertByTime, remove_outliers_global, rolling_median, rollingVals,
        windowEntries, vals, median, sortQ, insertQ, mean, sampleVar, preprocess_jump_adjust,
        firstJumpBelow, diffVals, List.find?, re_zero])
      (18, 0) (by norm_num)⟩

/-! ## Timestamp bookkeeping for the GPS-to-UTC shift -/

theorem times_adjustFrom (tj : ℕ) (jv : ℚ) (s : List (ℕ × ℚ)) :
    times (adjustFrom tj jv s) = times s := by
  induction s with
  | nil => rfl
  | cons p ps ih =>
    simp only [adjustFrom, List.map_cons, times] at ih ⊢
    congr 1
    split <;> rfl

theorem jump_loop_swe_times (fuel : ℕ) (jv : ℚ) (u s : List (ℕ × ℚ))
    (h : jump_loop_swe fuel jv u = some s) : times s = times u := by
  induction fuel generalizing u with
  | zero => simp [jump_loop_swe] at h
  | succ n ih =>
    rw [jump_loop_swe] at h
    cases hj : firstJumpBelow 1000 u with
    | none =>
      rw [hj] at h
      simp only [Option.some.injEq] at h
      subst h
      rfl
    | some j =>
      rw [hj] at h
      rw [ih _ h, times_adjustFrom]

theorem jump_loop_gnssir_times (fuel : ℕ) (jv : ℚ) (u s : List (ℕ × ℚ))
    (h : jump_loop_gnssir fuel jv u = some s) : times s = times u := by
  induction fuel generalizing u with
  | zero => simp [jump_loop_gnssir] at h
  | succ n ih =>
    rw [jump_loop_gnssir] at h
    cases hj : firstJumpAbove 2500 u with
    | none =>
      rw [hj] at h
      simp only [Option.some.injEq] at h
      subst h
      rfl
    | some j =>
      rw [hj] at h
      rw [ih _ h, times_adjustFrom]

theorem mast_correction_swe_times (fuel : ℕ) (u s : List (ℕ × ℚ))
    (h : mast_correction_swe fuel u = JumpOutcome.ok s) : times s = times u := by
  unfold mast_correction_swe at h
  split at h
  · exact absurd h (by simp)
  · next j hj =>
      split at h
      · exact absurd h (by simp)
      · next v hl =>
          simp only [JumpOutcome.ok.injEq] at h
          subst h
          exact jump_loop_swe_times fuel j.2 u _ hl

theorem mem_insertByTime (p : ℕ × ℚ) (l : List (ℕ × ℚ)) (q : ℕ × ℚ) :
    q ∈ insertByTime p l ↔ q = p ∨ q ∈ l := by
  induction l with
  | nil => simp [insertByTime]
  | cons x xs ih =>
    simp only [insertByTime]
    split
    · simp [List.mem_cons]
    · rw [List.mem_cons, ih, List.mem_cons]
      tauto

theorem mem_sort_index (s : List (ℕ × ℚ)) (q : ℕ × ℚ) : q ∈ sort_index s ↔ q ∈ s := by
  induction s with
  | nil => simp [sort_index]
  | cons x xs ih =>
    simp only [sort_index, List.foldr_cons] at ih ⊢
    rw [mem_insertByTime, ih, List.mem_cons]

theorem selectAmbiguity_times (amb : ℕ) (records : List EnuRecord) (p : ℕ × ℚ)
    (hp : p ∈ selectAmbiguity amb records) : p.1 ∈ records.map EnuRecord.t := by
  rw [selectAmbiguity, mem_sort_index] at hp
  obtain ⟨r, hr, rfl⟩ := List.mem_map.mp hp
  exact List.mem_map_of_mem _ (List.mem_filter.mp hr).1

theorem toMm_mem_times (s : List (ℕ × ℚ)) (p : ℕ × ℚ) (hp : p ∈ toMm s) : p.1 ∈ times s := by
  obtain ⟨r, hr, rfl⟩ := List.mem_map.mp hp
  show r.1 ∈ times s
  exact List.mem_map_of_mem _ hr

theorem times_mem_source (amb : ℕ) (records : List EnuRecord) (t : ℕ)
    (ht : t ∈ times (toMm (selectAmbiguity amb records))) : t ∈ records.map EnuRecord.t := by
  obtain ⟨r, hr, rfl⟩ := List.mem_map.mp ht
  obtain ⟨q, hq, rfl⟩ := List.mem_map.mp hr
  exact selectAmbiguity_times amb records q hq

theorem preprocess_zero_ref_mem_times (nzero : ℕ) (s : List (ℕ × ℚ)) (p : ℕ × ℚ)
    (hp : p ∈ preprocess_zero_ref nzero s) : p.1 ∈ times s := by
  obtain ⟨r, hr, rfl⟩ := List.mem_map.mp hp
  show r.1 ∈ times s
  exact List.mem_map_of_mem _ hr

theorem rolling_median_mem_times (dur : ℕ) (s : List (ℕ × ℚ)) (p : ℕ × ℚ)
    (hp : p ∈ rolling_median dur s) : p.1 ∈ times s := by
  obtain ⟨r, hr, rfl⟩ := List.mem_map.mp hp
  show r.1 ∈ times s
  exact List.mem_map_of_mem _ hr

theorem preprocess_jump_adjust_mem_times (m : List (ℕ × ℚ)) (p : ℕ × ℚ)
    (hp : p ∈ preprocess_jump_adjust m) : p.1 ∈ times m := by
  unfold preprocess_jump_adjust at hp
  split at hp
  · exact List.mem_map_of_mem _ hp
  · rcases List.mem_append.mp hp with h | h
    · exact List.mem_map_of_mem _ (List.mem_filter.mp h).1
    · obtain ⟨x, hx, rfl⟩ := List.mem_map.mp h
      show x.1 ∈ times m
      exact List.mem_map_of_mem _ (List.mem_filter.mp hx).1

theorem re_zero_mem_times (s out : List (ℕ × ℚ)) (h : re_zero s = some out) (p : ℕ × ℚ)
    (hp : p ∈ out) : p.1 ∈ times s := by
  cases s with
  | nil => simp [re_zero] at h
  | cons q rest =>
    simp only [re_zero, Option.some.injEq] at h
    subst h
    obtain ⟨x, hx, rfl⟩ := List.mem_map.mp hp
    show x.1 ∈ times (q :: rest)
    exact List.mem_map_of_mem _ hx

/-- C9: both SWE derivation paths move the index by eighteen seconds
(`swe_gnss.index + pd.Timedelta(seconds=18)`): every emitted sample's
timestamp equals some admitted input record's timestamp plus 18, and in
particular differs from it. -/
theorem c9_gps_utc_shift :
    (∀ fuel k records amb out,
      filter_rtklib_solutions fuel k records amb = JumpOutcome.ok out →
      ∀ p ∈ out, ∃ t0, t0 ∈ records.map EnuRecord.t ∧ p.1 = t0 + 18 ∧ p.1 ≠ t0) ∧
    (∀ nzero k records amb out,
      preprocess_filter_rtklib_solutions nzero k records amb = some out →
      ∀ p ∈ out, ∃ t0, t0 ∈ records.map EnuRecord.t ∧ p.1 = t0 + 18 ∧ p.1 ≠ t0) := by
  constructor
  · intro fuel k records amb out h
    unfold filter_rtklib_solutions at h
    split at h
    · next s hs =>
        simp only [JumpOutcome.ok.injEq] at h
        obtain ⟨u, hu, hshape⟩ := swe_core_ok_shape fuel k records amb s hs
        subst h
        subst hshape
        intro p hp
        simp only [List.map_map, List.mem_map, Function.comp] at hp
        obtain ⟨r, hr, rfl⟩ := hp
        refine ⟨r.1, ?_, rfl, by omega⟩
        have h1 : r.1 ∈ times (remove_outliers 259200 k u) :=
          rolling_median_mem_times 86400 _ r hr
        obtain ⟨x, hx, hxt⟩ := List.mem_map.mp h1
        have hxu : x ∈ u := (List.mem_filter.mp hx).1
        have h2 : x.1 ∈ times (toMm (selectAmbiguity amb records)) := by
          rw [← mast_correction_swe_times fuel _ u hu]
          exact List.mem_map_of_mem _ hxu
        rw [← hxt]
        exact times_mem_source amb records x.1 h2
    · next e hne =>
        exact absurd h (hne out)
  · intro nzero k records amb out h
    unfold preprocess_filter_rtklib_solutions at h
    split at h
    · exact absurd h (by simp)
    · next s hs =>
        simp only [Option.some.injEq] at h
        subst h
        intro p hp
        obtain ⟨r, hr, rfl⟩ := List.mem_map.mp hp
        refine ⟨r.1, ?_, rfl, by omega⟩
        have h1 := re_zero_mem_times _ s hs r hr
        obtain ⟨x, hx, hxt⟩ := List.mem_map.mp h1
        have h2 := preprocess_jump_adjust_mem_times _ x hx
        obtain ⟨y, hy, hyt⟩ := List.mem_map.mp h2
        have h3 := rolling_median_mem_times 86400 _ y hy
        obtain ⟨z, hz, hzt⟩ := List.mem_map.mp h3
        have hzf : z ∈ preprocess_zero_ref nzero (selectAmbiguity amb records) :=
          (List.mem_filter.mp hz).1
        obtain ⟨w, hw, hwt⟩ := List.mem_map.mp hzf
        rw [← hxt, ← hyt, ← hzt, ← hwt]
        exact selectAmbiguity_times amb records w hw

/-- C9 witness: the shift theorem instantiated on the concrete
`c3Records` run, at the first emitted sample `(918, 4)`. -/
theorem c9_witness :
    ∃ t0, t0 ∈ c3Records.map EnuRecord.t ∧ ((918 : ℕ), (4 : ℚ)).1 = t0 + 18 ∧
      ((918 : ℕ), (4 : ℚ)).1 ≠ t0 :=
  c9_gps_utc_shift.1 3 2 c3Records 1 [(918, 4), (1818, 2), (2718, 0)]
    (by norm_num [filter_rtklib_solutions, swe_core, c3Records, selectAmbiguity, sort_index,
      insertByTime, toMm, mast_correction_swe, jump_loop_swe, firstJumpBelow, diffVals,
      List.find?, adjustFrom, remove_outliers, retainsOutlier, rollingVals, windowEntries,
      vals, median, sortQ, insertQ, mean, sampleVar, rolling_median, minList])
    (918, 4) (by norm_num)

/-- C6: a sample retained by the rolling outlier rejection of
`filter_rtklib_solutions`/`filter_gnssir` has at least two samples in its
own trailing window, lies strictly within `k` rolling standard deviations
of that window's median (stated in the equivalent squared form over `ℚ`),
and the window holds only samples whose timestamps do not exceed the
sample's own — local trailing statistics, not whole-series ones. -/
theorem c6_outlier_local_bound (s : List (ℕ × ℚ)) (dur : ℕ) (k : ℚ) (p : ℕ × ℚ)
    (h : p ∈ remove_outliers dur k s) :
    2 ≤ (rollingVals s dur p.1).length ∧
    (p.2 - median (rollingVals s dur p.1)) ^ 2 < k ^ 2 * sampleVar (rollingVals s dur p.1) ∧
    ∀ q ∈ windowEntries s dur p.1, q.1 ≤ p.1 := by
  obtain ⟨hmem, hret⟩ := List.mem_filter.mp h
  rw [retainsOutlier, decide_eq_true_eq] at hret
  refine ⟨hret.1, hret.2, ?_⟩
  intro q hq
  obtain ⟨hqs, hqw⟩ := List.mem_filter.mp hq
  exact (of_decide_eq_true hqw).1

/-- C6 witness: on the two-sample series `[(0, 0), (900, 8)]` with `k = 2`
the second sample is retained and satisfies the local bound. -/
theorem c6_witness :
    2 ≤ (rollingVals [(0, 0), (900, 8)] 259200 ((900 : ℕ), (8 : ℚ)).1).length ∧
    (((900 : ℕ), (8 : ℚ)).2 - median (rollingVals [(0, 0), (900, 8)] 259200 900)) ^ 2 <
      (2 : ℚ) ^ 2 * sampleVar (rollingVals [(0, 0), (900, 8)] 259200 900) ∧
    ∀ q ∈ windowEntries [(0, 0), (900, 8)] 259200 900, q.1 ≤ ((900 : ℕ), (8 : ℚ)).1 :=
  c6_outlier_local_bound [(0, 0), (900, 8)] 259200 2 (900, 8)
    (by norm_num [remove_outliers, retainsOutlier, rollingVals, windowEntries, vals, median,
      sortQ, insertQ, mean, sampleVar])

/-- C5: every sample the density estimator returns lies in the half-open
physical band `[50, 830)` kg/m3 — the final mask
`density_fil[~((density_fil < 50) | (density_fil >= 830))]` drops
everything else, whatever the two input series and the calibration are. -/
theorem c5_density_bounds (swe sh : List (ℕ × ℚ)) (cal_date : ℕ) (cal_val : ℚ)
    (out : List (ℕ × ℚ)) (h : convert_swesh2density swe sh cal_date cal_val = some out) :
    ∀ p ∈ out, 50 ≤ p.2 ∧ p.2 < 830 := by
  unfold convert_swesh2density at h
  split at h
  · exact absurd h (by simp)
  · next dm hdm =>
      simp only [Option.some.injEq] at h
      subst h
      intro p hp
      obtain ⟨hmem, hband⟩ := List.mem_filter.mp hp
      rw [decide_eq_true_eq, not_or, not_lt, not_le] at hband
      exact ⟨hband.1, hband.2⟩

/-- C5 witness: `swe = [10, 20, 30]` mm against `sh = [25, 50, 75]` mm
with calibration value `420` on day 0 gives the constant calibrated
density `420`, inside the band. -/
theorem c5_witness : 50 ≤ ((0 : ℕ), (420 : ℚ)).2 ∧ ((0 : ℕ), (420 : ℚ)).2 < 830 :=
  c5_density_bounds [(0, 10), (900, 20), (1800, 30)] [(0, 25), (900, 50), (1800, 75)]
    0 420 [(0, 420), (900, 420), (1800, 420)]
    (by norm_num [convert_swesh2density, daily_median_at, join_div, times, valueAt,
      rolling_median, rollingVals, windowEntries, vals, median, sortQ, insertQ])
    (0, 420) (by norm_num)

/-- C7: height-to-SWE followed by SWE-to-height is the identity, both with
the constant density 408 and with any per-timestamp density greater than
zero; over the exact rationals that stand for the source's floats the
round trip is exact, so it holds a fortiori within floating-point
tolerance. -/
theorem c7_roundtrip_conversion :
    (∀ x : ℚ, convert_swe2sh (convert_sh2swe x) = x) ∧
    (∀ x dens : ℚ, 0 < dens → convert_swe2sh_ipol (convert_sh2swe_ipol x dens) dens = x) := by
  constructor
  · intro x
    unfold convert_swe2sh convert_sh2swe
    ring
  · intro x dens hd
    unfold convert_swe2sh_ipol convert_sh2swe_ipol
    field_simp

/-- C7 witness: the round trip at height `5` mm and density `400` kg/m3. -/
theorem c7_witness : convert_swe2sh_ipol (convert_sh2swe_ipol 5 400) 400 = 5 :=
  c7_roundtrip_conversion.2 5 400 (by norm_num)

/-- C8: with fewer than two aligned pairs none of the three operations
returns an explicit insufficient-overlap condition.  The Pearson
correlation silently evaluates to `NaN`; the RMSE evaluates to `NaN` for
zero pairs (silent zero-by-zero division) and to a plain number for one
pair; the least-squares fit raises a generic non-specific `TypeError` for
zero pairs and returns a rank-deficiency warning result for one pair. -/
theorem c8_insufficient_overlap_behavior :
    (∀ pairs : List (ℚ × ℚ), pairs.length < 2 → seriesCorr pairs = CorrResult.nan) ∧
    np_rmse [] = RmseResult.nan ∧
    (∀ d : ℚ, np_rmse [d] = RmseResult.val (d ^ 2)) ∧
    np_polyfit ([] : List (ℚ × ℚ)) = FitResult.typeError ∧
    (∀ x y : ℚ, np_polyfit [(x, y)] = FitResult.rankWarn) := by
  refine ⟨?_, by simp [np_rmse], ?_, by simp [np_polyfit], ?_⟩
  · intro pairs hn
    unfold seriesCorr
    rw [if_pos hn]
  · intro d
    simp [np_rmse]
  · intro x y
    simp [np_polyfit, List.dedup]

/-- C8 counterexample: two series overlapping in exactly one timestamp
join to the single pair `(1, 2)`, on which the pandas correlation of
`calculate_crosscorr` yields `NaN` — no explicit insufficient-overlap
condition distinguishes this from a valid coefficient. -/
theorem c8_counterexample :
    inner_join [(0, 1)] [(0, 2), (900, 3)] = [((1 : ℚ), (2 : ℚ))] ∧
    [((1 : ℚ), (2 : ℚ))].length < 2 ∧
    seriesCorr [((1 : ℚ), (2 : ℚ))] = CorrResult.nan := by
  refine ⟨?_, by norm_num, by simp [seriesCorr]⟩
  norm_num [inner_join, times, valueAt]

/-- C8 witness: the small-overlap behavior applied to the single joined
pair of the counterexample. -/
theorem c8_witness : seriesCorr [((1 : ℚ), (2 : ℚ))] = CorrResult.nan :=
  c8_insufficient_overlap_behavior.1 [(1, 2)] (by norm_num)
